import Mathlib

/-!
Verification development for the mcf-faces repository: a family-photo
face-recognition system with a React frontend (under `web/`) talking to a
face-identity backend through the JSON API client in `web/src/api.js`.

The definitions below are shallow embeddings of the repository's code:

* `FaceRec` and the list operations on it embed the optimistic-update /
  rollback / undo logic of `web/src/components/FacesView.jsx`
  (`handleFaceUpdate`, `handleFaceDelete`, `handleUndo`).
* `PhotoRec` and `getSortedPhotos` embed `getSortedPhotos` of
  `SimplifiedGalleryView` (JavaScript's `Array.prototype.sort` is a stable
  sort, embedded here as `List.insertionSort`, which is stable;
  `localeCompare` on date strings of the shape `YYYY-MM-DD` coincides with
  codepoint-lexicographic comparison, embedded as `String` order).
* `Json`, `HttpResponse` and `apiRequest` embed the `apiRequest` helper of
  `web/src/api.js`, including JavaScript truthiness of the `detail` field
  (`error.detail || 'Request failed'`) and `String(...)` conversion
  performed by `new Error(...)`.
* `ReprocessOptions` and `reprocessQuery` embed the query-string
  construction of `reprocess` in `web/src/api.js`.
* `Store` and the operations on it model the backend identity metadata
  store, whose Python sources are not part of this repository checkout;
  each such definition carries a doc comment starting `Modelled from the
  spec:` naming what it models.
-/

namespace McfFaces

/-! ### Face records as displayed by `FacesView` -/

/-- A face record as held in the `faces` state of `FacesView.jsx`:
`face_id`, optional assigned `name`, the cluster number rendered as
`Cluster n`, optional `date`, and the `thumbnail` file. -/
structure FaceRec where
  face_id : String
  name : Option String
  person_cluster : Option Nat
  date : Option String
  thumbnail : String
deriving DecidableEq, Repr

/-- Embeds `faces.find(f => f.face_id === faceId)` from
`FacesView.handleFaceUpdate` / `handleFaceDelete`. -/
def findFace (faces : List FaceRec) (faceId : String) : Option FaceRec :=
  faces.find? (fun f => f.face_id == faceId)

/-- Embeds the optimistic update of `FacesView.handleFaceUpdate`:
`prev.map(f => f.face_id === faceId ? {...f, name: newName} : f)`. -/
def optimisticUpdateFaces (faces : List FaceRec) (faceId : String) (newName : String) :
    List FaceRec :=
  faces.map (fun f => if f.face_id = faceId then { f with name := some newName } else f)

/-- Embeds the optimistic update of `FacesView.handleFaceDelete`:
`prev.map(f => f.face_id === faceId ? {...f, name: null} : f)`. -/
def optimisticClearFaces (faces : List FaceRec) (faceId : String) : List FaceRec :=
  faces.map (fun f => if f.face_id = faceId then { f with name := none } else f)

/-- Embeds the error rollback of `FacesView.handleFaceUpdate` /
`handleFaceDelete`: `prev.map(f => f.face_id === faceId ? oldFace : f)`. -/
def rollbackFaces (faces : List FaceRec) (faceId : String) (oldFace : FaceRec) :
    List FaceRec :=
  faces.map (fun f => if f.face_id = faceId then oldFace else f)

/-- Embeds the local-state restore of `FacesView.handleUndo`:
`prev.map(f => f.face_id === face.face_id ? face : f)`. -/
def undoRestoreFaces (faces : List FaceRec) (face : FaceRec) : List FaceRec :=
  faces.map (fun f => if f.face_id = face.face_id then face else f)

/-! ### Gallery sorting (`SimplifiedGalleryView.getSortedPhotos`) -/

/-- A photo record as held by `SimplifiedGalleryView`: `file` name and
optional `date` string. -/
structure PhotoRec where
  file : String
  date : Option String
deriving DecidableEq, Repr

/-- The `FALLBACK_DATE_MAX` constant of `SimplifiedGalleryView.jsx`. -/
def FALLBACK_DATE_MAX : String := "9999-12-31"

/-- Lexicographic comparison of character lists by codepoint, which is
what `localeCompare` performs on ASCII date strings such as
`YYYY-MM-DD`: the comparator is non-positive exactly when this returns
`true`. -/
def lexLeChars : List Char → List Char → Bool
  | [], _ => true
  | _ :: _, [] => false
  | a :: as, b :: bs => if a < b then true else if b < a then false else lexLeChars as bs

/-- String order used by the gallery comparators: codepoint-lexicographic
(`a.localeCompare(b) <= 0` on date strings). -/
def strLe (a b : String) : Prop := lexLeChars a.data b.data = true

/-- Strict codepoint-lexicographic string order
(`a.localeCompare(b) < 0` on date strings). -/
def strLt (a b : String) : Prop := lexLeChars b.data a.data = false

instance (a b : String) : Decidable (strLe a b) :=
  inferInstanceAs (Decidable (_ = true))

instance (a b : String) : Decidable (strLt a b) :=
  inferInstanceAs (Decidable (_ = false))

theorem lexLeChars_total : ∀ as bs, lexLeChars as bs = true ∨ lexLeChars bs as = true := by
  intro as
  induction as with
  | nil => intro bs; left; rfl
  | cons a as ih =>
    intro bs
    cases bs with
    | nil => right; rfl
    | cons b bs =>
      by_cases hab : a < b
      · left
        simp [lexLeChars, hab]
      · by_cases hba : b < a
        · right
          simp [lexLeChars, hba]
        · rcases ih bs with h | h
          · left
            simp [lexLeChars, hab, hba, h]
          · right
            simp [lexLeChars, hab, hba, h]

theorem lexLeChars_trans :
    ∀ as bs cs, lexLeChars as bs = true → lexLeChars bs cs = true →
      lexLeChars as cs = true := by
  intro as
  induction as with
  | nil => intro bs cs _ _; rfl
  | cons a as ih =>
    intro bs cs h1 h2
    cases bs with
    | nil => simp [lexLeChars] at h1
    | cons b bs =>
      cases cs with
      | nil => simp [lexLeChars] at h2
      | cons c cs =>
        simp only [lexLeChars] at h1 h2 ⊢
        by_cases hab : a < b
        · by_cases hbc : b < c
          · simp [lt_trans hab hbc]
          · by_cases hcb : c < b
            · rw [if_neg hbc, if_pos hcb] at h2
              exact absurd h2 (by simp)
            · have hbc2 : b = c := le_antisymm (not_lt.mp hcb) (not_lt.mp hbc)
              subst hbc2
              simp [hab]
        · by_cases hba : b < a
          · rw [if_neg hab, if_pos hba] at h1
            exact absurd h1 (by simp)
          · have hab2 : a = b := le_antisymm (not_lt.mp hba) (not_lt.mp hab)
            subst hab2
            rw [if_neg hab, if_neg hba] at h1
            by_cases hac : a < c
            · simp [hac]
            · by_cases hca : c < a
              · rw [if_neg hac, if_pos hca] at h2
                exact absurd h2 (by simp)
              · rw [if_neg hac, if_neg hca] at h2 ⊢
                exact ih bs cs h1 h2

/-- The key used in `date-desc` mode: `a.date || '0000-00-00'`. -/
def descKey (p : PhotoRec) : String := p.date.getD "0000-00-00"

/-- The key used in `date-asc` mode: `a.date || FALLBACK_DATE_MAX`. -/
def ascKey (p : PhotoRec) : String := p.date.getD FALLBACK_DATE_MAX

/-- The ordering realised by the `date-desc` comparator
`(a, b) => dateB.localeCompare(dateA)`: `a` may precede `b` exactly when
the comparator is non-positive. -/
def descRel (a b : PhotoRec) : Prop := strLe (descKey b) (descKey a)

/-- The ordering realised by the `date-asc` comparator
`(a, b) => dateA.localeCompare(dateB)`. -/
def ascRel (a b : PhotoRec) : Prop := strLe (ascKey a) (ascKey b)

/-- The ordering realised by the `name` comparator
`(a, b) => a.file.localeCompare(b.file)`. -/
def fileRel (a b : PhotoRec) : Prop := strLe a.file b.file

instance : DecidableRel descRel :=
  fun _ _ => inferInstanceAs (Decidable (_ = true))

instance : DecidableRel ascRel :=
  fun _ _ => inferInstanceAs (Decidable (_ = true))

instance : DecidableRel fileRel :=
  fun _ _ => inferInstanceAs (Decidable (_ = true))

instance : IsTotal PhotoRec descRel :=
  ⟨fun a b => lexLeChars_total (descKey b).data (descKey a).data⟩

instance : IsTrans PhotoRec descRel :=
  ⟨fun _ _ _ hab hbc => lexLeChars_trans _ _ _ hbc hab⟩

instance : IsTotal PhotoRec ascRel :=
  ⟨fun a b => lexLeChars_total (ascKey a).data (ascKey b).data⟩

instance : IsTrans PhotoRec ascRel :=
  ⟨fun _ _ _ hab hbc => lexLeChars_trans _ _ _ hab hbc⟩

instance : IsTotal PhotoRec fileRel :=
  ⟨fun a b => lexLeChars_total a.file.data b.file.data⟩

instance : IsTrans PhotoRec fileRel :=
  ⟨fun _ _ _ hab hbc => lexLeChars_trans _ _ _ hab hbc⟩

/-- Embeds `SimplifiedGalleryView.getSortedPhotos`: switch on the
`sortBy` mode and sort a copy of the photo list with the corresponding
comparator (stable sort, hence `insertionSort`). -/
def getSortedPhotos (sortBy : String) (photos : List PhotoRec) : List PhotoRec :=
  if sortBy = "date-desc" then List.insertionSort descRel photos
  else if sortBy = "date-asc" then List.insertionSort ascRel photos
  else if sortBy = "name" then List.insertionSort fileRel photos
  else photos

/-! ### Reprocess trigger (`reprocess` in `api.js`) -/

/-- Options accepted by `reprocess(options = {})` in `api.js`; an absent
field is `none` (JavaScript `undefined`). -/
structure ReprocessOptions where
  recompute_embeddings : Option Bool := none
  recluster : Option Bool := none
deriving DecidableEq, Repr

/-- Embeds the query-string construction of `reprocess` in `api.js`:
`recompute_embeddings=true` is appended when `options.recompute_embeddings`
is truthy, then `recluster=true` is appended when
`options.recluster !== false`. -/
def reprocessQuery (o : ReprocessOptions) : List (String × String) :=
  (if o.recompute_embeddings = some true then [("recompute_embeddings", "true")] else [])
    ++ (if o.recluster ≠ some false then [("recluster", "true")] else [])

/-- The default argument `{}` of `reprocess(options = {})`. -/
def defaultReprocessOptions : ReprocessOptions := {}

/-! ### The `apiRequest` helper of `api.js` -/

/-- A JSON value, as far as the error paths of `apiRequest` need:
arrays are not produced by the backend's error bodies and are omitted. -/
inductive Json where
  | null : Json
  | bool (b : Bool) : Json
  | str (s : String) : Json
  | num (n : Int) : Json
  | obj (fields : List (String × Json)) : Json

/-- JavaScript truthiness of a JSON value (`undefined` is represented by
`Option.none` at use sites). -/
def truthy : Json → Bool
  | .null => false
  | .bool b => b
  | .str s => s ≠ ""
  | .num n => n ≠ 0
  | .obj _ => true

/-- Property access `v.detail` on a parsed JSON value: a field lookup on
an object, `undefined` (`none`) otherwise. -/
def jsLookup (v : Json) (key : String) : Option Json :=
  match v with
  | .obj fields => (fields.find? (fun p => p.1 == key)).map (·.2)
  | _ => none

/-- JavaScript `String(v)` conversion as performed by `new Error(v)`. -/
def jsToString : Json → String
  | .null => "null"
  | .bool true => "true"
  | .bool false => "false"
  | .str s => s
  | .num n => toString n
  | .obj _ => "[object Object]"

/-- An HTTP response as observed by `apiRequest`: the `ok` flag and the
result of `response.json()` (`none` when the body is not valid JSON, in
which case `response.json()` rejects). -/
structure HttpResponse where
  ok : Bool
  json : Option Json

/-- Embeds `apiRequest` of `api.js`.  On a non-ok response the body is
parsed, a parse failure is replaced by `{ detail: 'Request failed' }`,
and the call throws `new Error(error.detail || 'Request failed')`; on an
ok response the parsed body is returned (a parse failure there makes
`response.json()` reject). -/
def apiRequest (resp : HttpResponse) : Except String Json :=
  if resp.ok then
    match resp.json with
    | some j => .ok j
    | none => .error "Unexpected end of JSON input"
  else
    .error
      (match resp.json with
      | none => "Request failed"
      | some j =>
        match jsLookup j "detail" with
        | some d => if truthy d then jsToString d else "Request failed"
        | none => "Request failed")

/-! ### The identity metadata store (backend, modelled from the spec)

The backend service (a Python FastAPI application, per the deployment
documentation) is not part of this repository checkout; only its HTTP
client (`web/src/api.js`) and UI callers are.  The store and its mutation
operations are therefore modelled from the specification's §3 data model
and §4.3/§4.4 operation contracts. -/

/-- A face record of the metadata store: stable identifier, owning photo,
nullable cluster id, nullable assigned name. -/
structure StoreFace where
  face_id : String
  photo : String
  cluster : Option Nat
  name : Option String
deriving DecidableEq, Repr

/-- A photo record of the metadata store: unique filename, nullable date,
identifiers of the faces it contains. -/
structure StorePhoto where
  file : String
  date : Option String
  faces : List String
deriving DecidableEq, Repr

/-- A family-tree entry: parent names, child names, optional spouse. -/
structure FamilyEntry where
  parents : List String
  children : List String
  spouse : Option String
deriving DecidableEq, Repr

/-- Modelled from the spec: the Identity Metadata Store — the durable
record of faces, photos, clusters, the NameMap (cluster id to name) and
the family tree (keyed by person name). -/
structure Store where
  faces : List StoreFace
  photos : List StorePhoto
  clusters : List Nat
  nameMap : List (Nat × String)
  familyTree : List (String × FamilyEntry)
deriving DecidableEq, Repr

/-- Modelled from the spec: "assign/clear name on a face — overrides
cluster-level name for that one face without touching the cluster's
NameMap entry; must not affect sibling faces in the same cluster"
(the backend handler of `PATCH /faces/{id}/identity` is not in this
checkout). -/
def updateFaceIdentity (st : Store) (faceId : String) (name : String) : Store :=
  { st with
    faces := st.faces.map (fun f =>
      if f.face_id = faceId then { f with name := some name } else f) }

/-- Modelled from the spec: "merge clusters (source, target) — reassigns
all of source's members into target, deletes source, target's name wins
if target is named, otherwise source's name is adopted", with
"attempting `merge(A, A)` rejected with a user-input error" (the backend
handler of `POST /clusters/merge` is not in this checkout). -/
def mergeClusters (st : Store) (source target : Nat) : Except String Store :=
  if source = target then
    .error "cannot merge a cluster into itself"
  else
    let faces := st.faces.map (fun f =>
      if f.cluster = some source then { f with cluster := some target } else f)
    let clusters := st.clusters.filter (fun c => c ≠ source)
    let nameMap :=
      if (st.nameMap.find? (fun e => e.1 == target)).isSome then
        st.nameMap.filter (fun e => e.1 ≠ source)
      else
        match st.nameMap.find? (fun e => e.1 == source) with
        | some e => st.nameMap.filter (fun x => x.1 ≠ source) ++ [(target, e.2)]
        | none => st.nameMap
    .ok { st with faces := faces, clusters := clusters, nameMap := nameMap }

/-- Runs a merge request the way the API surface does: a rejected merge
leaves the persisted store untouched and reports the reason. -/
def runMergeClusters (st : Store) (source target : Nat) : Store × Option String :=
  match mergeClusters st source target with
  | .ok st2 => (st2, none)
  | .error e => (st, some e)

/-- Modelled from the spec: "upsert/delete family tree entry — validates
no self-reference; does not require the referenced clusters to exist yet"
(the backend handler of `POST /family_tree/update` is not in this
checkout; the UI's `FamilyTreeView.handleSave` submits without a
self-reference check). -/
def upsertFamilyTree (st : Store) (person : String) (parents children : List String)
    (spouse : Option String) : Except String Store :=
  if person ∈ parents ∨ person ∈ children ∨ spouse = some person then
    .error "a person cannot be their own parent, child, or spouse"
  else
    .ok { st with
      familyTree := st.familyTree.filter (fun e => e.1 ≠ person)
        ++ [(person, ⟨parents, children, spouse⟩)] }

/-- Runs a family-tree upsert the way the API surface does: a rejected
upsert leaves the persisted store untouched and reports the reason. -/
def runUpsertFamilyTree (st : Store) (person : String) (parents children : List String)
    (spouse : Option String) : Store × Option String :=
  match upsertFamilyTree st person parents children spouse with
  | .ok st2 => (st2, none)
  | .error e => (st, some e)

/-! ### Suggestion engine (backend, modelled from the spec) -/

/-- A suggestion candidate as consumed by `FaceIdentityEditor.jsx`:
a `name` and a `reason` code. -/
structure Suggestion where
  name : String
  reason : String
deriving DecidableEq, Repr

/-- The reason code of a co-occurrence suggestion.  The literal is taken
from the repository's consumer of the suggestions API,
`FaceIdentityEditor.jsx` line 90, which renders the annotation for
`suggestion.reason === 'appears_in_same_photo'` — the only code in this
checkout that mentions the reason code. -/
def cooccurReason : String := "appears_in_same_photo"

/-- Embeds the reason rendering of `FaceIdentityEditor.jsx` line 90:
`{suggestion.reason === 'appears_in_same_photo' && '(in same photo)'}`
(a non-matching reason renders nothing). -/
def renderSuggestionReason (r : String) : String :=
  if r = "appears_in_same_photo" then "(in same photo)" else ""

/-- Modelled from the spec: the names of all other faces in the given
face's photo that have a name ("scan all other faces in the same photo;
for each that has a name, emit it as a candidate"), without duplicates. -/
def coOccurringNames (st : Store) (f : StoreFace) : List String :=
  ((st.faces.filter (fun g => g.photo == f.photo && g.face_id != f.face_id)).filterMap
    (fun g => g.name)).dedup

/-- Modelled from the spec: the frequency of co-occurrence of a name with
the given face's cluster across the whole collection — the number of
photos containing both a face of the face's cluster and a face carrying
that name ("a person frequently photographed with this face's cluster
ranks higher"). -/
def coOccurCount (st : Store) (f : StoreFace) (n : String) : Nat :=
  (st.photos.filter (fun p =>
    (st.faces.any (fun g => g.photo == p.file && g.cluster == f.cluster))
      && (st.faces.any (fun g => g.photo == p.file && g.name == some n)))).length

/-- Candidate names ranked by decreasing co-occurrence frequency: `n` may
precede `m` exactly when `n`'s count is at least `m`'s. -/
def rankRel (st : Store) (f : StoreFace) (n m : String) : Prop :=
  coOccurCount st f m ≤ coOccurCount st f n

instance (st : Store) (f : StoreFace) : DecidableRel (rankRel st f) :=
  fun n m => inferInstanceAs (Decidable (coOccurCount st f m ≤ coOccurCount st f n))

instance (st : Store) (f : StoreFace) : IsTotal String (rankRel st f) :=
  ⟨fun n m => le_total (coOccurCount st f m) (coOccurCount st f n)⟩

instance (st : Store) (f : StoreFace) : IsTrans String (rankRel st f) :=
  ⟨fun _ _ _ hab hbc => le_trans hbc hab⟩

/-- Modelled from the spec: the ranked candidate list for one face —
co-occurring named faces' names, ranked by decreasing co-occurrence
frequency, "capping the result list length" at `cap` (the cap value is
not specified and is kept as a parameter). -/
def suggestionsFor (cap : Nat) (st : Store) (f : StoreFace) : List Suggestion :=
  ((List.insertionSort (rankRel st f) (coOccurringNames st f)).map
    (fun n => ⟨n, cooccurReason⟩)).take cap

/-- Modelled from the spec: the suggestions operation behind
`GET /faces/{id}/suggestions` — look the face up and produce its ranked
candidate list; an unknown face yields no candidates. -/
def getFaceSuggestions (cap : Nat) (st : Store) (faceId : String) : List Suggestion :=
  match st.faces.find? (fun f => f.face_id == faceId) with
  | some f => suggestionsFor cap st f
  | none => []

/-- Runs a suggestions request the way the API surface does: it is a read
— the store it leaves behind is the store it was given. -/
def runGetFaceSuggestions (cap : Nat) (st : Store) (faceId : String) :
    Store × List Suggestion :=
  (st, getFaceSuggestions cap st faceId)

/-! ### Concrete stores used to instantiate the theorems -/

/-- A store with one unlabeled face whose photo contains one other face,
also unnamed. -/
def storeNoNamedCooccupants : Store :=
  { faces :=
      [ { face_id := "f1", photo := "p1", cluster := some 0, name := none }
      , { face_id := "f2", photo := "p1", cluster := some 1, name := none } ]
  , photos := [ { file := "p1", date := none, faces := ["f1", "f2"] } ]
  , clusters := [0, 1]
  , nameMap := []
  , familyTree := [] }

/-- An empty store, for instantiating the family-tree theorems. -/
def storeEmpty : Store :=
  { faces := [], photos := [], clusters := [], nameMap := [], familyTree := [] }

/-! ### Claim theorems -/

/-- C1 (amended): for an unlabeled face, every name carried by another
face in the same photo appears among the returned candidates with reason
code `appears_in_same_photo` (the code the repository's UI matches on),
every returned candidate carries that reason code, and the candidate list
is ordered by decreasing co-occurrence frequency across the whole
collection — provided the number of distinct candidate names does not
exceed the result-length cap. -/
theorem suggestions_cooccur_named_ranked :
    ∀ (cap : Nat) (st : Store) (fid : String) (f : StoreFace) (n : String),
      st.faces.find? (fun g => g.face_id == fid) = some f →
      f.name = none →
      (∃ g ∈ st.faces, g.photo = f.photo ∧ g.face_id ≠ f.face_id ∧ g.name = some n) →
      (coOccurringNames st f).length ≤ cap →
      ((⟨n, cooccurReason⟩ : Suggestion) ∈ getFaceSuggestions cap st fid) ∧
      (∀ s ∈ getFaceSuggestions cap st fid, s.reason = "appears_in_same_photo") ∧
      List.Pairwise
        (fun s t : Suggestion => coOccurCount st f t.name ≤ coOccurCount st f s.name)
        (getFaceSuggestions cap st fid) := by
  intro cap st fid f n hfind hunlabeled hco hcap
  have hgs : getFaceSuggestions cap st fid = suggestionsFor cap st f := by
    simp [getFaceSuggestions, hfind]
  have hperm := List.perm_insertionSort (rankRel st f) (coOccurringNames st f)
  have hlen : (List.insertionSort (rankRel st f) (coOccurringNames st f)).length
      = (coOccurringNames st f).length := hperm.length_eq
  have htake : suggestionsFor cap st f
      = (List.insertionSort (rankRel st f) (coOccurringNames st f)).map
          (fun m => ⟨m, cooccurReason⟩) := by
    unfold suggestionsFor
    apply List.take_of_length_le
    rw [List.length_map, hlen]
    exact hcap
  rw [hgs, htake]
  refine ⟨?_, ?_, ?_⟩
  · have hmemnames : n ∈ coOccurringNames st f := by
      obtain ⟨g, hgmem, hgphoto, hgid, hgname⟩ := hco
      unfold coOccurringNames
      rw [List.mem_dedup]
      rw [List.mem_filterMap]
      refine ⟨g, ?_, hgname⟩
      rw [List.mem_filter]
      refine ⟨hgmem, ?_⟩
      simp [hgphoto, hgid]
    have hmemsort : n ∈ List.insertionSort (rankRel st f) (coOccurringNames st f) :=
      hperm.mem_iff.mpr hmemnames
    exact List.mem_map.mpr ⟨n, hmemsort, rfl⟩
  · intro s hs
    obtain ⟨m, _, rfl⟩ := List.mem_map.mp hs
    rfl
  · rw [List.pairwise_map]
    have hs := List.sorted_insertionSort (rankRel st f) (coOccurringNames st f)
    exact hs.imp (fun h => h)

/-- A store in which the unlabeled face `f1` shares its photo with one
named face, `Bob`. -/
def storeBobCooccur : Store :=
  { faces :=
      [ { face_id := "f1", photo := "p1", cluster := some 0, name := none }
      , { face_id := "f2", photo := "p1", cluster := some 1, name := some "Bob" } ]
  , photos := [ { file := "p1", date := none, faces := ["f1", "f2"] } ]
  , clusters := [0, 1]
  , nameMap := [(1, "Bob")]
  , familyTree := [] }

/-- Counterexample for C1 as stated: the suggestion returned for a
co-occurring named face carries the reason code `appears_in_same_photo` —
the code the repository's `FaceIdentityEditor` matches to render its
annotation — not the string `co-occurs in photo`; the UI would render
nothing for a reason of `co-occurs in photo`. -/
theorem suggestions_reason_code_counterexample :
    getFaceSuggestions 10 storeBobCooccur "f1"
      = [{ name := "Bob", reason := "appears_in_same_photo" }] ∧
    ("appears_in_same_photo" : String) ≠ "co-occurs in photo" ∧
    renderSuggestionReason "appears_in_same_photo" = "(in same photo)" ∧
    renderSuggestionReason "co-occurs in photo" = "" := by
  decide

/-- A store where the unlabeled face `f1` co-occurs with `Bob` (in one
photo) and with `Carol` (whose cluster shares two photos with `f1`'s
cluster), so `Carol` outranks `Bob`. -/
def storeTwoNamed : Store :=
  { faces :=
      [ { face_id := "f1", photo := "p1", cluster := some 0, name := none }
      , { face_id := "f2", photo := "p1", cluster := some 1, name := some "Bob" }
      , { face_id := "f3", photo := "p1", cluster := some 2, name := some "Carol" }
      , { face_id := "f4", photo := "p2", cluster := some 0, name := none }
      , { face_id := "f5", photo := "p2", cluster := some 2, name := some "Carol" } ]
  , photos :=
      [ { file := "p1", date := none, faces := ["f1", "f2", "f3"] }
      , { file := "p2", date := none, faces := ["f4", "f5"] } ]
  , clusters := [0, 1, 2]
  , nameMap := [(1, "Bob"), (2, "Carol")]
  , familyTree := [] }

/-- The unlabeled face of `storeTwoNamed`. -/
def faceF1 : StoreFace :=
  { face_id := "f1", photo := "p1", cluster := some 0, name := none }

/-- Witness for C1: in `storeTwoNamed`, `Bob` is among the candidates for
face `f1`, every candidate carries the `appears_in_same_photo` reason
code, and the list is ordered by decreasing co-occurrence count. -/
theorem suggestions_cooccur_named_ranked_witness :
    ((⟨"Bob", cooccurReason⟩ : Suggestion) ∈ getFaceSuggestions 10 storeTwoNamed "f1") ∧
    (∀ s ∈ getFaceSuggestions 10 storeTwoNamed "f1",
      s.reason = "appears_in_same_photo") ∧
    List.Pairwise
      (fun s t : Suggestion =>
        coOccurCount storeTwoNamed faceF1 t.name ≤ coOccurCount storeTwoNamed faceF1 s.name)
      (getFaceSuggestions 10 storeTwoNamed "f1") :=
  suggestions_cooccur_named_ranked 10 storeTwoNamed "f1" faceF1 "Bob"
    (by decide) (by decide)
    ⟨{ face_id := "f2", photo := "p1", cluster := some 1, name := some "Bob" }, by decide⟩
    (by decide)

/-- C2: requesting a merge of a cluster into itself is rejected as a
user-input error with a descriptive reason, and the metadata store
(faces, photos, clusters, name map) is left completely unchanged. -/
theorem merge_self_rejected_store_unchanged :
    ∀ (st : Store) (A : Nat),
      runMergeClusters st A A = (st, some "cannot merge a cluster into itself") := by
  intro st A
  simp [runMergeClusters, mergeClusters]

/-- C4: the get-suggestions operation never mutates the stored state, and
when the face's photo has no other named faces it returns an empty
candidate list. -/
theorem suggestions_readonly_and_empty_without_named_cooccupants :
    ∀ (cap : Nat) (st : Store) (fid : String),
      (runGetFaceSuggestions cap st fid).1 = st ∧
      (∀ f, st.faces.find? (fun g => g.face_id == fid) = some f →
        (∀ g ∈ st.faces, g.photo = f.photo → g.face_id ≠ f.face_id → g.name = none) →
        (runGetFaceSuggestions cap st fid).2 = []) := by
  intro cap st fid
  refine ⟨rfl, ?_⟩
  intro f hf hn
  have hnames : coOccurringNames st f = [] := by
    unfold coOccurringNames
    have hfm : (st.faces.filter
        (fun g => g.photo == f.photo && g.face_id != f.face_id)).filterMap
        (fun g => g.name) = [] := by
      rw [List.filterMap_eq_nil_iff]
      intro g hg
      obtain ⟨hmem, hp⟩ := List.mem_filter.mp hg
      simp only [Bool.and_eq_true, beq_iff_eq, bne_iff_ne, ne_eq] at hp
      exact hn g hmem hp.1 hp.2
    rw [hfm]
    rfl
  simp [runGetFaceSuggestions, getFaceSuggestions, hf, suggestionsFor, hnames]

/-- Witness for C4: on a concrete store whose only co-occupant is
unnamed, the suggestions call leaves the store unchanged and returns no
candidates. -/
theorem suggestions_readonly_and_empty_without_named_cooccupants_witness :
    (runGetFaceSuggestions 5 storeNoNamedCooccupants "f1").1 = storeNoNamedCooccupants ∧
    (runGetFaceSuggestions 5 storeNoNamedCooccupants "f1").2 = [] :=
  ⟨(suggestions_readonly_and_empty_without_named_cooccupants 5 storeNoNamedCooccupants "f1").1,
   (suggestions_readonly_and_empty_without_named_cooccupants 5 storeNoNamedCooccupants "f1").2
     { face_id := "f1", photo := "p1", cluster := some 0, name := none }
     (by decide) (by decide)⟩

/-- C6: a family-tree upsert listing the person among their own parents,
children, or as their own spouse is rejected with a descriptive
user-input error and no state change; an upsert free of self-reference is
accepted with no requirement that the referenced names have clustered
faces (the acceptance branch assumes nothing about the rest of the
store). -/
theorem familyTree_selfref_rejected_forwardref_accepted :
    ∀ (st : Store) (person : String) (parents children : List String)
      (spouse : Option String),
      (person ∈ parents ∨ person ∈ children ∨ spouse = some person →
        runUpsertFamilyTree st person parents children spouse
          = (st, some "a person cannot be their own parent, child, or spouse")) ∧
      (person ∉ parents → person ∉ children → spouse ≠ some person →
        runUpsertFamilyTree st person parents children spouse
          = ({ st with familyTree := st.familyTree.filter (fun e => e.1 ≠ person)
                ++ [(person, ⟨parents, children, spouse⟩)] }, none)) := by
  intro st person parents children spouse
  constructor
  · intro h
    simp [runUpsertFamilyTree, upsertFamilyTree, h]
  · intro h1 h2 h3
    simp [runUpsertFamilyTree, upsertFamilyTree, h1, h2, h3]

/-- Witness for C6: a self-referential entry (Ann listed as her own
parent) is rejected leaving the empty store unchanged, while an entry
referencing Carol — who has no clustered faces anywhere in the store —
is accepted. -/
theorem familyTree_selfref_rejected_forwardref_accepted_witness :
    runUpsertFamilyTree storeEmpty "Ann" ["Ann"] [] none
      = (storeEmpty, some "a person cannot be their own parent, child, or spouse") ∧
    runUpsertFamilyTree storeEmpty "Bob" ["Carol"] [] none
      = ({ storeEmpty with
            familyTree := [("Bob", ⟨["Carol"], [], none⟩)] }, none) :=
  ⟨(familyTree_selfref_rejected_forwardref_accepted storeEmpty "Ann" ["Ann"] [] none).1
      (by decide),
   (familyTree_selfref_rejected_forwardref_accepted storeEmpty "Bob" ["Carol"] [] none).2
      (by decide) (by decide) (by decide)⟩

/-- C5 (amended): a non-ok response makes `apiRequest` reject — never
produce a value — with the string form of the body's `detail` field when
the body parses as JSON containing that field with a truthy value, and
with `Request failed` otherwise (missing field, unparseable body, or a
falsy `detail` such as the empty string); an ok response returns the
parsed JSON body. -/
theorem apiRequest_rejects_with_detail_or_fallback :
    ∀ (resp : HttpResponse) (j : Json),
      (resp.ok = false → resp.json = some j → ∀ dv, jsLookup j "detail" = some dv →
        truthy dv = true → apiRequest resp = .error (jsToString dv)) ∧
      (resp.ok = false → resp.json = some j → ∀ dv, jsLookup j "detail" = some dv →
        truthy dv = false → apiRequest resp = .error "Request failed") ∧
      (resp.ok = false → resp.json = some j → jsLookup j "detail" = none →
        apiRequest resp = .error "Request failed") ∧
      (resp.ok = false → resp.json = none → apiRequest resp = .error "Request failed") ∧
      (resp.ok = false → ∀ v, apiRequest resp ≠ .ok v) ∧
      (resp.ok = true → resp.json = some j → apiRequest resp = .ok j) := by
  intro resp j
  refine ⟨?_, ?_, ?_, ?_, ?_, ?_⟩
  · intro hok hjson dv hdv htr
    simp [apiRequest, hok, hjson, hdv, htr]
  · intro hok hjson dv hdv htr
    simp [apiRequest, hok, hjson, hdv, htr]
  · intro hok hjson hdv
    simp [apiRequest, hok, hjson, hdv]
  · intro hok hjson
    simp [apiRequest, hok, hjson]
  · intro hok v
    cases hj : resp.json <;> simp [apiRequest, hok, hj]
  · intro hok hjson
    simp [apiRequest, hok, hjson]

/-- Counterexample for C5 as stated: a non-ok response whose body parses
as JSON containing a `detail` field holding the empty string rejects with
`Request failed`, not with that field's (empty) value — JavaScript's
`error.detail || 'Request failed'` discards a falsy `detail`. -/
theorem apiRequest_empty_detail_counterexample :
    apiRequest ⟨false, some (Json.obj [("detail", Json.str "")])⟩
      = .error "Request failed" ∧
    jsLookup (Json.obj [("detail", Json.str "")]) "detail" = some (Json.str "") ∧
    ("Request failed" : String) ≠ "" :=
  ⟨rfl, rfl, by decide⟩

/-- Witness for C5: a non-ok response with `detail` set to `boom` rejects
with `boom`, and an ok response returns its parsed body. -/
theorem apiRequest_rejects_with_detail_or_fallback_witness :
    apiRequest ⟨false, some (Json.obj [("detail", Json.str "boom")])⟩ = .error "boom" ∧
    apiRequest ⟨true, some (Json.obj [])⟩ = .ok (Json.obj []) :=
  ⟨(apiRequest_rejects_with_detail_or_fallback
      ⟨false, some (Json.obj [("detail", Json.str "boom")])⟩
      (Json.obj [("detail", Json.str "boom")])).1 rfl rfl (Json.str "boom") rfl (by decide),
   (apiRequest_rejects_with_detail_or_fallback
      ⟨true, some (Json.obj [])⟩ (Json.obj [])).2.2.2.2.2 rfl rfl⟩

/-- C3: assigning a name to one face updates only that face's name
field — every face record at a position whose identifier differs is
unchanged, the record at a matching position changes in its name field
only, and on the store side (modelled from the spec) the NameMap, photos,
clusters and family tree are untouched. -/
theorem assign_face_name_updates_only_that_name :
    ∀ (fs : List FaceRec) (faceId newName : String) (st : Store),
      (optimisticUpdateFaces fs faceId newName).length = fs.length ∧
      (∀ (i : Nat) (f : FaceRec), fs[i]? = some f → f.face_id ≠ faceId →
        (optimisticUpdateFaces fs faceId newName)[i]? = some f) ∧
      (∀ (i : Nat) (f : FaceRec), fs[i]? = some f → f.face_id = faceId →
        (optimisticUpdateFaces fs faceId newName)[i]?
          = some { f with name := some newName }) ∧
      (updateFaceIdentity st faceId newName).nameMap = st.nameMap ∧
      (updateFaceIdentity st faceId newName).photos = st.photos ∧
      (updateFaceIdentity st faceId newName).clusters = st.clusters ∧
      (updateFaceIdentity st faceId newName).familyTree = st.familyTree ∧
      (∀ (i : Nat) (g : StoreFace), st.faces[i]? = some g → g.face_id ≠ faceId →
        (updateFaceIdentity st faceId newName).faces[i]? = some g) ∧
      (∀ (i : Nat) (g : StoreFace), st.faces[i]? = some g → g.face_id = faceId →
        (updateFaceIdentity st faceId newName).faces[i]?
          = some { g with name := some newName }) := by
  intro fs faceId newName st
  refine ⟨by simp [optimisticUpdateFaces], ?_, ?_, rfl, rfl, rfl, rfl, ?_, ?_⟩
  · intro i f hf hne
    simp [optimisticUpdateFaces, List.getElem?_map, hf, hne]
  · intro i f hf heq
    simp [optimisticUpdateFaces, List.getElem?_map, hf, heq]
  · intro i g hg hne
    simp [updateFaceIdentity, List.getElem?_map, hg, hne]
  · intro i g hg heq
    simp [updateFaceIdentity, List.getElem?_map, hg, heq]

/-- A two-face list with distinct identifiers, used to instantiate the
frontend-list theorems. -/
def facesAB : List FaceRec :=
  [ { face_id := "a", name := some "Ann", person_cluster := some 0,
      date := some "2001-01-01", thumbnail := "t1" }
  , { face_id := "b", name := none, person_cluster := some 1,
      date := none, thumbnail := "t2" } ]

/-- Witness for C3: naming face `a` in a concrete two-face list rewrites
only that record's name and leaves face `b` and the store's NameMap
untouched. -/
theorem assign_face_name_updates_only_that_name_witness :
    (optimisticUpdateFaces facesAB "a" "Zoe")[1]?
      = some { face_id := "b", name := none, person_cluster := some 1,
               date := none, thumbnail := "t2" } ∧
    (optimisticUpdateFaces facesAB "a" "Zoe")[0]?
      = some { face_id := "a", name := some "Zoe", person_cluster := some 0,
               date := some "2001-01-01", thumbnail := "t1" } ∧
    (updateFaceIdentity storeNoNamedCooccupants "f1" "Zoe").nameMap
      = storeNoNamedCooccupants.nameMap :=
  ⟨(assign_face_name_updates_only_that_name facesAB "a" "Zoe"
      storeNoNamedCooccupants).2.1 1
      { face_id := "b", name := none, person_cluster := some 1,
        date := none, thumbnail := "t2" } (by decide) (by decide),
   (assign_face_name_updates_only_that_name facesAB "a" "Zoe"
      storeNoNamedCooccupants).2.2.1 0
      { face_id := "a", name := some "Ann", person_cluster := some 0,
        date := some "2001-01-01", thumbnail := "t1" } (by decide) (by decide),
   (assign_face_name_updates_only_that_name facesAB "a" "Zoe"
      storeNoNamedCooccupants).2.2.2.1⟩

/-- Replacing every record matching an identifier by the record that a
`find?` on that identifier returned undoes a per-record modification that
keeps identifiers intact, provided identifiers are pairwise distinct.
This is the common core of the rollback of `handleFaceUpdate` /
`handleFaceDelete` and of the restore of `handleUndo`. -/
theorem map_replace_of_modify (g : FaceRec → FaceRec)
    (hg : ∀ f, (g f).face_id = f.face_id) :
    ∀ (fs : List FaceRec) (faceId : String) (old : FaceRec),
      (fs.map FaceRec.face_id).Nodup →
      List.find? (fun f => f.face_id == faceId) fs = some old →
      ((fs.map (fun f => if f.face_id = faceId then g f else f)).map
        (fun f => if f.face_id = faceId then old else f)) = fs := by
  intro fs
  induction fs with
  | nil =>
    intro faceId old _ hfind
    simp at hfind
  | cons f rest ih =>
    intro faceId old hnd hfind
    by_cases hf : f.face_id = faceId
    · have hold : old = f := by
        rw [List.find?_cons_of_pos rest (by simp [hf])] at hfind
        exact (Option.some.injEq ..).mp hfind.symm ▸ rfl
      subst hold
      have hrest : ∀ r ∈ rest, r.face_id ≠ faceId := by
        intro r hr hre
        have hmem : old.face_id ∈ rest.map FaceRec.face_id := by
          rw [hf, ← hre]
          exact List.mem_map.mpr ⟨r, hr, rfl⟩
        exact (List.nodup_cons.mp (by simpa using hnd)).1 hmem
      simp only [List.map_cons, if_pos hf,
        if_pos (show (g old).face_id = faceId by rw [hg]; exact hf)]
      have htail : ((rest.map (fun f => if f.face_id = faceId then g f else f)).map
          (fun f => if f.face_id = faceId then old else f)) = rest := by
        rw [List.map_map]
        have hpt : ∀ r ∈ rest,
            ((fun f => if f.face_id = faceId then old else f) ∘
              (fun f => if f.face_id = faceId then g f else f)) r = id r := by
          intro r hr
          simp [Function.comp, if_neg (hrest r hr)]
        rw [List.map_congr_left hpt, List.map_id]
      rw [htail]
    · have hfind2 : List.find? (fun f => f.face_id == faceId) rest = some old := by
        rwa [List.find?_cons_of_neg rest (by simp [hf])] at hfind
      have hnd2 : (rest.map FaceRec.face_id).Nodup :=
        (List.nodup_cons.mp (by simpa using hnd)).2
      simp only [List.map_cons, if_neg hf]
      rw [ih faceId old hnd2 hfind2]

/-- C7 (amended): when the face identifiers in the list are pairwise
distinct, the error rollback of a failed identity update or identity
removal restores the face list to exactly its value before the optimistic
update. -/
theorem failed_operation_rollback_restores_list :
    ∀ (fs : List FaceRec) (faceId newName : String) (old : FaceRec),
      (fs.map FaceRec.face_id).Nodup →
      findFace fs faceId = some old →
      rollbackFaces (optimisticUpdateFaces fs faceId newName) faceId old = fs ∧
      rollbackFaces (optimisticClearFaces fs faceId) faceId old = fs := by
  intro fs faceId newName old hnd hfind
  exact ⟨map_replace_of_modify (fun f => { f with name := some newName })
           (fun _ => rfl) fs faceId old hnd hfind,
         map_replace_of_modify (fun f => { f with name := none })
           (fun _ => rfl) fs faceId old hnd hfind⟩

/-- A list in which two distinct records share the identifier `a`. -/
def facesDup : List FaceRec :=
  [ { face_id := "a", name := none, person_cluster := none,
      date := none, thumbnail := "t1" }
  , { face_id := "a", name := none, person_cluster := none,
      date := none, thumbnail := "t2" } ]

/-- Counterexample for C7 as stated: on a list where the identifier `a`
occurs twice, the rollback of a failed update replaces both records by
the one `find` returned, so the list is not restored to its prior
value. -/
theorem failed_operation_rollback_counterexample :
    findFace facesDup "a"
      = some { face_id := "a", name := none, person_cluster := none,
               date := none, thumbnail := "t1" } ∧
    rollbackFaces (optimisticUpdateFaces facesDup "a" "Zoe") "a"
        { face_id := "a", name := none, person_cluster := none,
          date := none, thumbnail := "t1" }
      ≠ facesDup := by
  decide

/-- Witness for C7: on a concrete two-face list with distinct
identifiers, rolling back a failed update and a failed removal both
restore the original list. -/
theorem failed_operation_rollback_restores_list_witness :
    rollbackFaces (optimisticUpdateFaces facesAB "a" "Zoe") "a"
        { face_id := "a", name := some "Ann", person_cluster := some 0,
          date := some "2001-01-01", thumbnail := "t1" }
      = facesAB ∧
    rollbackFaces (optimisticClearFaces facesAB "a") "a"
        { face_id := "a", name := some "Ann", person_cluster := some 0,
          date := some "2001-01-01", thumbnail := "t1" }
      = facesAB :=
  failed_operation_rollback_restores_list facesAB "a" "Zoe"
    { face_id := "a", name := some "Ann", person_cluster := some 0,
      date := some "2001-01-01", thumbnail := "t1" }
    (by decide) (by decide)

/-- C10: on a displayed list whose face identifiers are pairwise
distinct, a successful identity update followed by undo, and a successful
identity removal followed by undo, both restore the displayed list — in
particular the operated-on face's record — to exactly its prior value. -/
theorem undo_roundtrip_restores_face :
    ∀ (fs : List FaceRec) (faceId newName : String) (old : FaceRec),
      (fs.map FaceRec.face_id).Nodup →
      findFace fs faceId = some old →
      undoRestoreFaces (optimisticUpdateFaces fs faceId newName) old = fs ∧
      undoRestoreFaces (optimisticClearFaces fs faceId) old = fs := by
  intro fs faceId newName old hnd hfind
  have hid : old.face_id = faceId := by
    have := List.find?_some hfind
    simpa using this
  unfold undoRestoreFaces
  rw [hid]
  exact ⟨map_replace_of_modify (fun f => { f with name := some newName })
           (fun _ => rfl) fs faceId old hnd hfind,
         map_replace_of_modify (fun f => { f with name := none })
           (fun _ => rfl) fs faceId old hnd hfind⟩

/-- Witness for C10: update-then-undo and delete-then-undo on a concrete
two-face list restore it exactly. -/
theorem undo_roundtrip_restores_face_witness :
    undoRestoreFaces (optimisticUpdateFaces facesAB "a" "Zoe")
        { face_id := "a", name := some "Ann", person_cluster := some 0,
          date := some "2001-01-01", thumbnail := "t1" }
      = facesAB ∧
    undoRestoreFaces (optimisticClearFaces facesAB "a")
        { face_id := "a", name := some "Ann", person_cluster := some 0,
          date := some "2001-01-01", thumbnail := "t1" }
      = facesAB :=
  undo_roundtrip_restores_face facesAB "a" "Zoe"
    { face_id := "a", name := some "Ann", person_cluster := some 0,
      date := some "2001-01-01", thumbnail := "t1" }
    (by decide) (by decide)

/-- C9 (amended): in both date modes, provided every present date lies
strictly between the sentinel fallbacks `0000-00-00` and `9999-12-31` in
lexicographic order, the gallery sort places every photo lacking a date
after all photos that have one, and orders dated photos by lexicographic
comparison of their date fields (non-increasing in `date-desc`,
non-decreasing in `date-asc`). -/
theorem gallery_sort_dated_before_undated :
    ∀ (photos : List PhotoRec),
      (∀ p ∈ photos, ∀ d, p.date = some d →
        strLt "0000-00-00" d ∧ strLt d "9999-12-31") →
      (List.Pairwise
        (fun a b : PhotoRec => (a.date = none → b.date = none) ∧
          ∀ da db, a.date = some da → b.date = some db → strLe db da)
        (getSortedPhotos "date-desc" photos)) ∧
      (List.Pairwise
        (fun a b : PhotoRec => (a.date = none → b.date = none) ∧
          ∀ da db, a.date = some da → b.date = some db → strLe da db)
        (getSortedPhotos "date-asc" photos)) := by
  intro photos hdates
  constructor
  · have heq : getSortedPhotos "date-desc" photos = List.insertionSort descRel photos := rfl
    rw [heq]
    have hs : List.Pairwise descRel (List.insertionSort descRel photos) :=
      List.sorted_insertionSort descRel photos
    refine hs.imp_of_mem ?_
    intro a b ha hb hab
    have hb2 : b ∈ photos := (List.perm_insertionSort descRel photos).mem_iff.mp hb
    constructor
    · intro hanone
      by_contra hbnone
      obtain ⟨db, hdb⟩ := Option.ne_none_iff_exists.mp hbnone
      have hlow : strLt "0000-00-00" db := (hdates b hb2 db hdb.symm).1
      have hle : strLe (descKey b) (descKey a) := hab
      rw [show descKey a = "0000-00-00" by simp [descKey, hanone],
          show descKey b = db by simp [descKey, hdb.symm]] at hle
      exact absurd hle (by simpa [strLe, strLt] using hlow)
    · intro da db hda hdb
      have hle : strLe (descKey b) (descKey a) := hab
      rwa [show descKey a = da by simp [descKey, hda],
           show descKey b = db by simp [descKey, hdb]] at hle
  · have heq : getSortedPhotos "date-asc" photos = List.insertionSort ascRel photos := rfl
    rw [heq]
    have hs : List.Pairwise ascRel (List.insertionSort ascRel photos) :=
      List.sorted_insertionSort ascRel photos
    refine hs.imp_of_mem ?_
    intro a b ha hb hab
    have hb2 : b ∈ photos := (List.perm_insertionSort ascRel photos).mem_iff.mp hb
    constructor
    · intro hanone
      by_contra hbnone
      obtain ⟨db, hdb⟩ := Option.ne_none_iff_exists.mp hbnone
      have hhigh : strLt db "9999-12-31" := (hdates b hb2 db hdb.symm).2
      have hle : strLe (ascKey a) (ascKey b) := hab
      rw [show ascKey a = "9999-12-31" by simp [ascKey, FALLBACK_DATE_MAX, hanone],
          show ascKey b = db by simp [ascKey, hdb.symm]] at hle
      exact absurd hle (by simpa [strLe, strLt] using hhigh)
    · intro da db hda hdb
      have hle : strLe (ascKey a) (ascKey b) := hab
      rwa [show ascKey a = da by simp [ascKey, hda],
           show ascKey b = db by simp [ascKey, hdb]] at hle

/-- Counterexample for C9 as stated: in `date-asc` mode a photo dated
exactly `9999-12-31` compares equal to the fallback key of an undated
photo, and the stable sort then leaves the undated photo in front of the
dated one. -/
theorem gallery_sort_undated_first_counterexample :
    getSortedPhotos "date-asc" [⟨"u.jpg", none⟩, ⟨"m.jpg", some "9999-12-31"⟩]
      = [⟨"u.jpg", none⟩, ⟨"m.jpg", some "9999-12-31"⟩] ∧
    (⟨"u.jpg", none⟩ : PhotoRec).date = none ∧
    (⟨"m.jpg", some "9999-12-31"⟩ : PhotoRec).date.isSome = true := by
  decide

/-- A sample photo list with ordinary dates and one undated photo. -/
def photosSample : List PhotoRec :=
  [⟨"a.jpg", some "2020-01-01"⟩, ⟨"b.jpg", none⟩, ⟨"c.jpg", some "1999-05-05"⟩]

/-- Witness for C9: the amended theorem applies to a concrete list with
ordinary dates. -/
theorem gallery_sort_dated_before_undated_witness :
    (List.Pairwise
      (fun a b : PhotoRec => (a.date = none → b.date = none) ∧
        ∀ da db, a.date = some da → b.date = some db → strLe db da)
      (getSortedPhotos "date-desc" photosSample)) ∧
    (List.Pairwise
      (fun a b : PhotoRec => (a.date = none → b.date = none) ∧
        ∀ da db, a.date = some da → b.date = some db → strLe da db)
      (getSortedPhotos "date-asc" photosSample)) :=
  gallery_sort_dated_before_undated photosSample (by
    intro p hp d hd
    simp only [photosSample, List.mem_cons, List.not_mem_nil, or_false] at hp
    rcases hp with rfl | rfl | rfl
    · injection hd with h
      subst h
      exact ⟨by decide, by decide⟩
    · simp at hd
    · injection hd with h
      subst h
      exact ⟨by decide, by decide⟩)

/-- C8: with default options the reprocess trigger issues
`recluster=true` and does not send `recompute_embeddings`; for every
option record, `recompute_embeddings=true` is sent exactly when it was
explicitly requested, and `recluster=true` is sent unless re-clustering
was explicitly disabled. -/
theorem reprocess_defaults_recluster_only :
    reprocessQuery defaultReprocessOptions = [("recluster", "true")] ∧
    ∀ o : ReprocessOptions,
      (("recompute_embeddings", "true") ∈ reprocessQuery o ↔
        o.recompute_embeddings = some true) ∧
      (("recluster", "true") ∈ reprocessQuery o ↔ o.recluster ≠ some false) := by
  refine ⟨by decide, ?_⟩
  intro o
  obtain ⟨re, rc⟩ := o
  rcases re with _ | (_ | _) <;> rcases rc with _ | (_ | _) <;> decide

end McfFaces
